import Mathlib

/-
  Verification development for the x402-bazaar CLI payment core.

  Shallow embedding of:
  - the funding key resolver (src/src/commands/call.js, resolvePrivateKey /
    normalizeKey),
  - the CLI HTTP-402 retry flow (src/src/commands/call.js, callCommand /
    handleAutoPayment),
  - the generated MCP server 402 flow with session budget
    (src/src/commands/init.js, payAndRequest inside generateMcpServerFile),
  - the payment adapter (src/unnamed/part_000, sendUsdcPayment).

  External effects (fetch responses, JSON parse outcomes, on-chain transfer
  outcomes) are supplied as explicit oracle inputs; amounts are modelled as
  rationals (the JS code uses IEEE doubles only for comparison and addition
  of small USDC amounts; the guard logic under scrutiny is arithmetic-shape
  independent).
-/

namespace X402

/-! ## Key normalization (call.js, normalizeKey) -/

/-- Hexadecimal character test, mirroring the character class in the regex
test of normalizeKey: /[a-fA-F0-9]/. -/
def isHexDig (c : Char) : Bool :=
  decide (('0' ≤ c ∧ c ≤ '9') ∨ ('a' ≤ c ∧ c ≤ 'f') ∨ ('A' ≤ c ∧ c ≤ 'F'))

/-- Whitespace for String.prototype.trim (ASCII fragment; the claims only
involve ASCII keys). -/
def isWs (c : Char) : Bool :=
  decide (c = ' ' ∨ c = '\t' ∨ c = '\n' ∨ c = '\r')

/-- key.trim() on the character list. -/
def trimChars (l : List Char) : List Char :=
  ((l.dropWhile isWs).reverse.dropWhile isWs).reverse

/-- if (!key.startsWith(HEXMARK)) key = HEXMARK + key, where HEXMARK is 0x. -/
def withPrefix0x (l : List Char) : List Char :=
  if l.take 2 = ['0', 'x'] then l else '0' :: 'x' :: l

/-- The regex test /0x[a-fA-F0-9]\x7b64\x7d/ anchored at both ends:
two marker characters followed by exactly 64 hex digits. -/
def matchesKeyPattern (l : List Char) : Bool :=
  l.take 2 == ['0', 'x'] && l.length == 66 && (l.drop 2).all isHexDig

/-- normalizeKey (call.js lines 202-207): trim, force the 0x marker,
then validate against the 64-hex-digit pattern; null on mismatch. -/
def normalizeKey (key : String) : Option String :=
  let k := withPrefix0x (trimChars key.data)
  if matchesKeyPattern k then some (String.mk k) else none

/-! ## Funding key resolver (call.js, resolvePrivateKey) -/

/-- JavaScript truthiness of an optional string: undefined and the empty
string are falsy. -/
def jsTruthy (o : Option String) : Bool :=
  match o with
  | none => false
  | some s => !s.data.isEmpty

/-- Observable states of the wallet file read in resolvePrivateKey:
the file may be missing (existsSync false), unreadable (readFileSync
throws), hold invalid JSON (JSON.parse throws), or parse to an object
whose privateKey field is absent/falsy or a string. -/
inductive WalletFile where
  | missing
  | unreadable
  | invalidJson
  | fields (privateKey : Option String)
deriving DecidableEq

/-- The wallet-file tier of resolvePrivateKey (call.js lines 187-197):
every throwing read is caught and yields null; a falsy privateKey field
falls through to the final return null. -/
def walletFileKey : WalletFile → Option String
  | .fields (some s) => if s.data.isEmpty then none else normalizeKey s
  | _ => none

/-- resolvePrivateKey (call.js lines 178-200): options.key, then
process.env.X402_PRIVATE_KEY, then the wallet file, guarded by JS
truthiness at the first two tiers. -/
def resolvePrivateKey (optKey envKey : Option String) (file : WalletFile) :
    Option String :=
  if jsTruthy optKey then normalizeKey (optKey.getD "")
  else if jsTruthy envKey then normalizeKey (envKey.getD "")
  else walletFileKey file

/-! ## JSON values for the 402 challenge body (call.js variant) -/

/-- Fragment of JSON sufficient for the fields callCommand reads from a 402
body. Objects are field lists; JSON.parse deduplicates keys, so the
concrete objects used here have distinct keys and first-lookup semantics
agrees with JS property access. -/
inductive Json where
  | null
  | str (s : String)
  | num (q : ℚ)
  | obj (fields : List (String × Json))

/-- Property access a.k (undefined on non-objects and absent keys). -/
def Json.lookup : Json → String → Option Json
  | .obj fields, k => fields.lookup k
  | _, _ => none

/-- JS truthiness of an optional JSON value (undefined, null, the empty
string and 0 are falsy). -/
def truthyJ (o : Option Json) : Bool :=
  match o with
  | none => false
  | some .null => false
  | some (.str s) => !s.data.isEmpty
  | some (.num q) => decide (q ≠ 0)
  | some (.obj _) => true

/-- The JS short-circuit a or-else b used in the field extraction chains. -/
def jsOrJ (a b : Option Json) : Option Json :=
  if truthyJ a then a else b

/-- price extraction (call.js line 99):
paymentInfo.payment_details?.amount, else paymentInfo.price. -/
def priceOf (paymentInfo : Json) : Option Json :=
  jsOrJ ((paymentInfo.lookup "payment_details").bind (fun d => d.lookup "amount"))
    (paymentInfo.lookup "price")

/-- payTo extraction (call.js line 100):
payment_details?.recipient, else payment_details?.walletAddress,
else paymentInfo.paymentAddress. -/
def payToOf (paymentInfo : Json) : Option Json :=
  jsOrJ ((paymentInfo.lookup "payment_details").bind (fun d => d.lookup "recipient"))
    (jsOrJ ((paymentInfo.lookup "payment_details").bind (fun d => d.lookup "walletAddress"))
      (paymentInfo.lookup "paymentAddress"))

/-! ## Events observed during a 402 flow -/

/-- Observable effects of one flow execution: the initial request, a call
into the payment adapter, and a retried request with its headers. -/
inductive Event where
  | request
  | payCall
  | retried (headers : List (String × String))
deriving DecidableEq

def isPayEvent : Event → Bool
  | .payCall => true
  | _ => false

def isRetryEvent : Event → Bool
  | .retried _ => true
  | _ => false

/-- Number of payment-adapter calls in a trace. -/
def payCount (evs : List Event) : ℕ := evs.countP isPayEvent

/-- Number of retried requests in a trace. -/
def retryCount (evs : List Event) : ℕ := evs.countP isRetryEvent

/-! ## CLI 402 flow (call.js, callCommand / handleAutoPayment) -/

/-- Result of sendUsdcPayment as consumed by callCommand. -/
structure Payment where
  txHash : String
  explorer : String
deriving DecidableEq

/-- Terminal outcome of callCommand, as written to the terminal. -/
inductive CliOutcome where
  | success (body : String)
  | httpError (status : ℕ)
  | malformedChallenge
  | instructions (price payTo : Option Json) (remediation : List String)
  | paymentFailed (msg : String)
  | retryHttpError (status : ℕ)

/-- One run of the call command: process exit code, terminal outcome, and
the trace of observable effects. -/
structure CliRun where
  exitCode : ℕ
  outcome : CliOutcome
  events : List Event

/-- The remediation text printed on the no-auto-pay path
(call.js lines 117-133). -/
def remediationLines : List String :=
  [ "Option 1: Environment variable: export X402_PRIVATE_KEY=0xYourPrivateKey",
    "Option 2: --key flag: npx x402-bazaar call ... --key 0xYourKey",
    "Option 3: Generate a new wallet: npx x402-bazaar wallet --setup",
    "Option 4: Use the MCP server: npx x402-bazaar init" ]

/-- res.ok of the Fetch API: status in the range 200-299. -/
def isOkStatus (s : ℕ) : Bool := decide (200 ≤ s ∧ s < 300)

/-- Fetch headers of the initial CLI request (call.js lines 76-80). -/
def baseHeaders : List (String × String) := [("Content-Type", "application/json")]

/-- Oracle inputs for one callCommand run: the initial response status and
parsed body (none = res.json() threw), the resolved private key, the
outcome of sendUsdcPayment, and the retried response. -/
structure CliInput where
  status : ℕ
  parsed : Option Json
  body : String
  key : Option String
  payResult : Except String Payment
  retryStatus : ℕ
  retryBody : String

/-- handleAutoPayment (call.js lines 212-264): one sendUsdcPayment call;
on success one retried fetch with the X-Payment-TxHash header added; a
non-ok retry status is an HTTP error with exit 1; any payment error exits 1. -/
def handleAutoPayment (payResult : Except String Payment) (retryStatus : ℕ)
    (retryBody : String) : CliRun :=
  match payResult with
  | .error msg => ⟨1, .paymentFailed msg, [.request, .payCall]⟩
  | .ok p =>
    let headers := baseHeaders ++ [("X-Payment-TxHash", p.txHash)]
    if isOkStatus retryStatus then
      ⟨0, .success retryBody, [.request, .payCall, .retried headers]⟩
    else
      ⟨1, .retryHttpError retryStatus, [.request, .payCall, .retried headers]⟩

/-- callCommand 402 handling (call.js lines 86-154): on 402, a body that
fails to parse exits 1; otherwise price and payTo are extracted and
auto-payment runs only when a key is resolved and both fields are truthy;
otherwise the informational instructions path returns with exit 0.
Non-402 responses pass through (ok: exit 0; not ok: exit 1). -/
def callCommand (inp : CliInput) : CliRun :=
  if inp.status = 402 then
    match inp.parsed with
    | none => ⟨1, .malformedChallenge, [.request]⟩
    | some paymentInfo =>
      let price := priceOf paymentInfo
      let payTo := payToOf paymentInfo
      let autoPay := inp.key.isSome
      if autoPay && truthyJ price && truthyJ payTo then
        handleAutoPayment inp.payResult inp.retryStatus inp.retryBody
      else
        ⟨0, .instructions price payTo remediationLines, [.request]⟩
  else if isOkStatus inp.status then
    ⟨0, .success inp.body, [.request]⟩
  else
    ⟨1, .httpError inp.status, [.request]⟩

/-- The outcomes callCommand reports with exit code 1 (every failure other
than the informational instructions outcome). -/
def cliFailure : CliOutcome → Bool
  | .httpError _ => true
  | .malformedChallenge => true
  | .paymentFailed _ => true
  | .retryHttpError _ => true
  | _ => false

/-! ## Generated MCP server 402 flow (init.js, payAndRequest) -/

/-- payment_details as read by payAndRequest: details.amount after
parseFloat (finite values; the string-to-float parse itself is external),
and details.recipient, which the source reads without checking presence. -/
structure Details where
  amount : ℚ
  recipient : Option String
deriving DecidableEq

/-- A parsed 402 body in the server variant: only the payment_details
field is read. -/
structure RespBody where
  payment_details : Option Details
deriving DecidableEq

/-- One sessionPayments entry (timestamp omitted: real time is external;
endpoint stores the url with the server prefix stripped upstream). -/
structure LedgerEntry where
  amount : ℚ
  txHash : String
  endpoint : String
deriving DecidableEq

/-- The module-level budget state of the generated server:
sessionSpending and sessionPayments. -/
structure Budget where
  sessionSpending : ℚ
  sessionPayments : List LedgerEntry
deriving DecidableEq

/-- The _payment enrichment attached to a paid result
(init.js lines 585-592). -/
structure PaymentMeta where
  amount : ℚ
  txHash : String
  session_spent : ℚ
  session_remaining : ℚ
deriving DecidableEq

/-- Value returned by payAndRequest: the body verbatim for non-402, or the
retried body enriched with payment info. -/
inductive PRValue where
  | plain (body : RespBody)
  | paid (retryBody : String) (payment : PaymentMeta)
deriving DecidableEq

/-- Errors thrown out of payAndRequest. parseError: res.json() threw;
detailsMissing: TypeError reading amount of undefined; budgetExceeded:
the explicit budget throw carrying spent, limit and cost; paymentFailed:
createTransfer/wait threw; retryParseError: retryRes.json() threw. -/
inductive PRError where
  | parseError
  | detailsMissing
  | budgetExceeded (spent limit cost : ℚ)
  | paymentFailed
  | retryParseError
deriving DecidableEq

/-- Oracle inputs for one payAndRequest call. retryStatus is recorded but
never inspected by the source (init.js lines 579-594 read only
retryRes.json()). -/
structure PRInput where
  status : ℕ
  body : Except Unit RespBody
  headers : List (String × String)
  payOutcome : Except Unit String
  retryStatus : ℕ
  retryBody : Except Unit String

/-- One run of payAndRequest: the returned value or thrown error, the
budget state after the run, and the observable trace. -/
structure PRRun where
  result : Except PRError PRValue
  budget : Budget
  events : List Event

/-- payAndRequest (init.js lines 540-595): body is parsed before the
status test; non-402 returns the body; the budget check precedes the
transfer; sessionSpending and sessionPayments are mutated only after the
transfer confirms; the retried request carries X-Payment-TxHash and its
status is never checked. -/
def payAndRequest (MAX_BUDGET : ℚ) (url : String) (st : Budget)
    (inp : PRInput) : PRRun :=
  match inp.body with
  | .error _ => ⟨.error .parseError, st, [.request]⟩
  | .ok body =>
    if inp.status ≠ 402 then ⟨.ok (.plain body), st, [.request]⟩
    else
      match body.payment_details with
      | none => ⟨.error .detailsMissing, st, [.request]⟩
      | some details =>
        let cost := details.amount
        if st.sessionSpending + cost > MAX_BUDGET then
          ⟨.error (.budgetExceeded st.sessionSpending MAX_BUDGET cost), st,
            [.request]⟩
        else
          match inp.payOutcome with
          | .error _ => ⟨.error .paymentFailed, st, [.request, .payCall]⟩
          | .ok txHash =>
            let spent := st.sessionSpending + cost
            let st2 : Budget :=
              ⟨spent, st.sessionPayments ++ [⟨cost, txHash, url⟩]⟩
            let retryHeaders := inp.headers ++ [("X-Payment-TxHash", txHash)]
            match inp.retryBody with
            | .error _ =>
              ⟨.error .retryParseError, st2,
                [.request, .payCall, .retried retryHeaders]⟩
            | .ok rb =>
              ⟨.ok (.paid rb ⟨cost, txHash, spent, MAX_BUDGET - spent⟩), st2,
                [.request, .payCall, .retried retryHeaders]⟩

/-- A session: payAndRequest runs folded over the shared budget state. -/
def runSession (MAX_BUDGET : ℚ) (url : String) (st : Budget) :
    List PRInput → Budget
  | [] => st
  | inp :: rest =>
    runSession MAX_BUDGET url (payAndRequest MAX_BUDGET url st inp).budget rest

/-! ## Payment adapter (src/unnamed/part_000, sendUsdcPayment) -/

/-- Return value of sendUsdcPayment. -/
structure SendValue where
  txHash : String
  explorer : String
  fromAddr : String
  amount : ℚ
deriving DecidableEq

/-- Errors of sendUsdcPayment: the explicit insufficient-balance throw
carrying the available balance (in USDC) and the required amount, a
writeContract failure, or a receipt-wait failure. -/
inductive SendError where
  | insufficientFunds (available required : ℚ)
  | transferFailed
  | receiptFailed
deriving DecidableEq

/-- One run of sendUsdcPayment: its result and whether writeContract was
invoked at all. -/
structure SendOutcome where
  result : Except SendError SendValue
  transferAttempted : Bool

/-- sendUsdcPayment (part_000 lines 32-79). addressOf models
privateKeyToAccount(...).address, balanceOf the on-chain balanceOf query
in 6-decimal units; parseUnits(amountUsdc, 6) is amountUsdc * 1000000.
The balance check precedes the transfer; the insufficient-funds error
reports Number(balance)/1e6 and the required USDC amount. -/
def sendUsdcPayment (addressOf : String → String) (balanceOf : String → ℕ)
    (transferResult : Except Unit String) (receiptOk : Bool)
    (privateKey toAddress : String) (amountUsdc : ℚ) : SendOutcome :=
  let address := addressOf privateKey
  let amount : ℚ := amountUsdc * 1000000
  let balance : ℚ := (balanceOf address : ℚ)
  if balance < amount then
    ⟨.error (.insufficientFunds (balance / 1000000) amountUsdc), false⟩
  else
    match transferResult with
    | .error _ => ⟨.error .transferFailed, true⟩
    | .ok txHash =>
      if receiptOk then
        ⟨.ok ⟨txHash, "https://basescan.org/tx/" ++ txHash, address, amountUsdc⟩,
          true⟩
      else ⟨.error .receiptFailed, true⟩

/-! ## Sample data -/

/-- A canonical-format private key: 0x followed by 64 hex digits. -/
def sampleKey : String :=
  "0xaaaaaaaaaaaaaaaaaaaaaaaaaaaaaaaaaaaaaaaaaaaaaaaaaaaaaaaaaaaaaaaa"

/-- The recipient address of concrete scenario A of the spec. -/
def sampleAddr : String := "0xAAAA000000000000000000000000000000001111"

/-! ## Helper lemmas -/

theorem jsTruthy_none : jsTruthy none = false := rfl

/-- Every callCommand outcome flagged as a failure exits with code 1. -/
theorem cliFailure_exit_one (inp : CliInput)
    (h : cliFailure (callCommand inp).outcome = true) :
    (callCommand inp).exitCode = 1 := by
  obtain ⟨s, parsed, body, key, payResult, rs, rb⟩ := inp
  by_cases h4 : s = 402
  · cases parsed with
    | none => simp [callCommand, h4]
    | some pinfo =>
      by_cases hc : (Option.isSome key && truthyJ (priceOf pinfo)
          && truthyJ (payToOf pinfo)) = true
      · cases payResult with
        | error msg => simp [callCommand, h4, hc, handleAutoPayment]
        | ok p =>
          by_cases hr : isOkStatus rs = true
          · simp [callCommand, h4, hc, handleAutoPayment, hr, cliFailure] at h
          · simp [callCommand, h4, hc, handleAutoPayment, hr]
      · simp [callCommand, h4, hc, cliFailure] at h
  · by_cases ho : isOkStatus s = true
    · simp [callCommand, h4, ho, cliFailure] at h
    · simp [callCommand, h4, ho]

theorem truthyJ_none : truthyJ none = false := rfl

/-- After a successful payment, handleAutoPayment issues exactly the trace
request, payCall, retried-with-proof-header, whatever the retry status. -/
theorem handleAutoPayment_ok_events (p : Payment) (rs : ℕ) (rb : String) :
    (handleAutoPayment (.ok p) rs rb).events =
      [.request, .payCall,
        .retried (baseHeaders ++ [("X-Payment-TxHash", p.txHash)])] := by
  unfold handleAutoPayment
  by_cases hr : isOkStatus rs = true <;> simp [hr]

/-! ## Claims -/

/-- C6 (amended): the resolver evaluates explicit flag, then environment,
then wallet file, each tier consulted exactly when its value is a
non-empty string, first consulted match winning; a key is valid exactly
when, after trimming and prefixing 0x if absent, it matches 0x followed
by exactly 64 hex characters; a NON-EMPTY malformed explicit key yields
absent without falling through; an empty explicit key is treated as not
supplied (JS truthiness) and falls through; wallet-file read failures
yield absent. -/
theorem c6_resolver_amended :
    (∀ k env file, jsTruthy (some k) = true →
        resolvePrivateKey (some k) env file = normalizeKey k)
    ∧ (∀ optKey e file, jsTruthy optKey = false → jsTruthy (some e) = true →
        resolvePrivateKey optKey (some e) file = normalizeKey e)
    ∧ (∀ optKey envKey file, jsTruthy optKey = false → jsTruthy envKey = false →
        resolvePrivateKey optKey envKey file = walletFileKey file)
    ∧ (∀ k, (normalizeKey k).isSome = true ↔
        matchesKeyPattern (withPrefix0x (trimChars k.data)) = true)
    ∧ (∀ k env file, jsTruthy (some k) = true → normalizeKey k = none →
        resolvePrivateKey (some k) env file = none)
    ∧ (walletFileKey .missing = none ∧ walletFileKey .unreadable = none ∧
        walletFileKey .invalidJson = none ∧ walletFileKey (.fields none) = none) := by
  refine ⟨?_, ?_, ?_, ?_, ?_, by simp [walletFileKey]⟩
  · intro k env file h
    simp [resolvePrivateKey, h]
  · intro optKey e file h1 h2
    simp [resolvePrivateKey, h1, h2]
  · intro optKey envKey file h1 h2
    simp [resolvePrivateKey, h1, h2]
  · intro k
    by_cases hm : matchesKeyPattern (withPrefix0x (trimChars k.data)) = true
    · simp [normalizeKey, hm]
    · simp [normalizeKey, hm]
  · intro k env file h hm
    simp [resolvePrivateKey, h, hm]

/-- C6 witness: a non-empty malformed explicit key masks a valid
environment key and a valid wallet-file key: the resolver yields absent. -/
theorem c6_resolver_amended_witness :
    resolvePrivateKey (some "zz") (some sampleKey)
      (.fields (some sampleKey)) = none
    ∧ (normalizeKey sampleKey).isSome = true := by
  constructor
  · exact c6_resolver_amended.2.2.2.2.1 "zz" (some sampleKey)
      (.fields (some sampleKey)) (by rfl) (by rfl)
  · exact (c6_resolver_amended.2.2.2.1 sampleKey).mpr (by rfl)

/-- C6 counterexample: the empty string is a supplied, malformed explicit
key (it fails the format test after normalization), yet the resolver does
not return absent: it falls through and returns the wallet-file key. -/
theorem c6_counterexample :
    normalizeKey "" = none
    ∧ resolvePrivateKey (some "") none (.fields (some sampleKey)) =
        some sampleKey := by
  constructor <;> rfl

/-- C10 (amended): with no explicit flag and X402_PRIVATE_KEY set to a
NON-EMPTY but malformed value, the resolver returns absent without
consulting the wallet file; an empty-string value is treated as unset
(JS truthiness) and the wallet file is consulted. -/
theorem c10_env_fail_closed (e : String) (file : WalletFile)
    (he : jsTruthy (some e) = true) (hm : normalizeKey e = none) :
    resolvePrivateKey none (some e) file = none := by
  simp [resolvePrivateKey, jsTruthy_none, he, hm]

/-- C10 witness: X402_PRIVATE_KEY set to a non-empty malformed value
yields absent even though the wallet file holds a valid key. -/
theorem c10_env_fail_closed_witness :
    resolvePrivateKey none (some "not-a-key")
      (.fields (some sampleKey)) = none :=
  c10_env_fail_closed "not-a-key" (.fields (some sampleKey))
    (by rfl) (by rfl)

/-- C10 counterexample: X402_PRIVATE_KEY set to the empty string is set
and malformed, yet the resolver consults the wallet file and returns its
key instead of absent. -/
theorem c10_counterexample :
    normalizeKey "" = none
    ∧ resolvePrivateKey none (some "") (.fields (some sampleKey)) =
        some sampleKey := by
  constructor <;> rfl

/-- C5: with a 402 initial response, a parsed challenge body and no
resolved funding key, zero payment calls and zero retries are made; the
outcome is the informational payment-required result carrying the
extracted amount and recipient together with remediation instructions,
and the call command exits 0 on it; every failure outcome exits 1. -/
theorem c5_no_funding_configured (inp : CliInput) (paymentInfo : Json)
    (h402 : inp.status = 402) (hp : inp.parsed = some paymentInfo)
    (hk : inp.key = none) :
    callCommand inp =
      ⟨0, .instructions (priceOf paymentInfo) (payToOf paymentInfo)
        remediationLines, [.request]⟩
    ∧ payCount (callCommand inp).events = 0
    ∧ retryCount (callCommand inp).events = 0
    ∧ remediationLines ≠ []
    ∧ ∀ other : CliInput, cliFailure (callCommand other).outcome = true →
        (callCommand other).exitCode = 1 := by
  have hrun : callCommand inp =
      ⟨0, .instructions (priceOf paymentInfo) (payToOf paymentInfo)
        remediationLines, [.request]⟩ := by
    simp [callCommand, h402, hp, hk]
  refine ⟨hrun, ?_, ?_, by simp [remediationLines], fun o h => cliFailure_exit_one o h⟩
  · rw [hrun]; rfl
  · rw [hrun]; rfl

/-- C5 witness: scenario A challenge with no key: informational outcome
with exit code 0, zero payments, zero retries. -/
theorem c5_no_funding_configured_witness :
    callCommand ⟨402,
        some (.obj [("price", .str "0.01"), ("paymentAddress", .str sampleAddr)]),
        "", none, .error "unused", 200, "rb"⟩ =
      ⟨0, .instructions (some (.str "0.01")) (some (.str sampleAddr))
        remediationLines, [.request]⟩ := by
  have h := c5_no_funding_configured ⟨402,
      some (.obj [("price", .str "0.01"), ("paymentAddress", .str sampleAddr)]),
      "", none, .error "unused", 200, "rb"⟩
    (.obj [("price", .str "0.01"), ("paymentAddress", .str sampleAddr)])
    rfl rfl rfl
  exact h.1

/-- C1: in both 402 flows, when the initial response is 402, the challenge
yields amount and recipient, a funding key is resolved (server variant:
the budget admits the cost) and the payment succeeds, exactly one payment
is submitted and exactly one retried request is issued, carrying the
transaction hash of the payment in the added X-Payment-TxHash header. -/
theorem c1_one_payment_one_retry (inp : CliInput) (paymentInfo : Json)
    (k : String) (p : Payment)
    (h402 : inp.status = 402) (hp : inp.parsed = some paymentInfo)
    (hprice : truthyJ (priceOf paymentInfo) = true)
    (hpay : truthyJ (payToOf paymentInfo) = true)
    (hkey : inp.key = some k) (hres : inp.payResult = .ok p)
    (MAX_BUDGET : ℚ) (url : String) (st : Budget) (sInp : PRInput)
    (rbody : RespBody) (d : Details) (tx rb : String)
    (hs : sInp.status = 402) (hb : sInp.body = .ok rbody)
    (hd : rbody.payment_details = some d)
    (hbud : st.sessionSpending + d.amount ≤ MAX_BUDGET)
    (hpo : sInp.payOutcome = .ok tx) (hrb : sInp.retryBody = .ok rb) :
    (payCount (callCommand inp).events = 1
      ∧ retryCount (callCommand inp).events = 1
      ∧ ∀ hdrs, Event.retried hdrs ∈ (callCommand inp).events →
          ("X-Payment-TxHash", p.txHash) ∈ hdrs)
    ∧ (payCount (payAndRequest MAX_BUDGET url st sInp).events = 1
      ∧ retryCount (payAndRequest MAX_BUDGET url st sInp).events = 1
      ∧ ∀ hdrs, Event.retried hdrs ∈ (payAndRequest MAX_BUDGET url st sInp).events →
          ("X-Payment-TxHash", tx) ∈ hdrs) := by
  constructor
  · obtain ⟨s, parsed, body, key, payResult, rs, rrb⟩ := inp
    simp only at h402 hp hkey hres
    subst h402 hp hkey hres
    have hrun : (callCommand ⟨402, some paymentInfo, body, some k, .ok p, rs, rrb⟩).events =
        [.request, .payCall,
          .retried (baseHeaders ++ [("X-Payment-TxHash", p.txHash)])] := by
      rw [show callCommand ⟨402, some paymentInfo, body, some k, .ok p, rs, rrb⟩ =
          handleAutoPayment (.ok p) rs rrb by simp [callCommand, hprice, hpay]]
      exact handleAutoPayment_ok_events p rs rrb
    rw [hrun]
    refine ⟨rfl, rfl, ?_⟩
    intro hdrs hmem
    simp only [List.mem_cons, List.not_mem_nil, or_false] at hmem
    rcases hmem with h1 | h1 | h1
    · simp at h1
    · simp at h1
    · injection h1 with h2
      subst h2
      simp [baseHeaders]
  · obtain ⟨ss, sbody, shdrs, spo, srs, srb⟩ := sInp
    obtain ⟨pd⟩ := rbody
    simp only at hs hb hd hpo hrb
    subst hs hb hd hpo hrb
    have hevs : (payAndRequest MAX_BUDGET url st
        ⟨402, .ok ⟨some d⟩, shdrs, .ok tx, srs, .ok rb⟩).events =
        [.request, .payCall, .retried (shdrs ++ [("X-Payment-TxHash", tx)])] := by
      simp [payAndRequest, not_lt.mpr hbud]
    rw [hevs]
    refine ⟨rfl, rfl, ?_⟩
    intro hdrs hmem
    simp only [List.mem_cons, List.not_mem_nil, or_false] at hmem
    rcases hmem with h1 | h1 | h1
    · simp at h1
    · simp at h1
    · injection h1 with h2
      subst h2
      simp

/-- C1 witness: scenario A: flat challenge in the shape the code accepts,
a resolved key and a successful payment on each variant. -/
theorem c1_one_payment_one_retry_witness :
    payCount (callCommand ⟨402,
      some (.obj [("price", .str "0.01"), ("paymentAddress", .str sampleAddr)]),
      "", some sampleKey, .ok ⟨"0xTX", "e"⟩, 200, "rb"⟩).events = 1
    ∧ payCount (payAndRequest 1 "u" ⟨0, []⟩
        ⟨402, .ok ⟨some ⟨1/100, some "0xREC"⟩⟩, [], .ok "0xTX", 200, .ok "rb"⟩).events = 1 := by
  have h := c1_one_payment_one_retry
    ⟨402, some (.obj [("price", .str "0.01"), ("paymentAddress", .str sampleAddr)]),
      "", some sampleKey, .ok ⟨"0xTX", "e"⟩, 200, "rb"⟩
    (.obj [("price", .str "0.01"), ("paymentAddress", .str sampleAddr)])
    sampleKey ⟨"0xTX", "e"⟩ rfl rfl rfl rfl rfl rfl
    1 "u" ⟨0, []⟩ ⟨402, .ok ⟨some ⟨1/100, some "0xREC"⟩⟩, [], .ok "0xTX", 200, .ok "rb"⟩
    ⟨some ⟨1/100, some "0xREC"⟩⟩ ⟨1/100, some "0xREC"⟩ "0xTX" "rb"
    rfl rfl rfl (by norm_num) rfl rfl
  exact ⟨h.1.1, h.2.1⟩

/-- Concrete server-variant input whose retried request returns 402. -/
def c2Input : PRInput :=
  ⟨402, .ok ⟨some ⟨1/20, some "0xREC"⟩⟩, [], .ok "0xTX", 402, .ok "rb"⟩

/-- C2 counterexample: in the generated server variant the retried request
returns 402 again, yet payAndRequest returns the retried body as a normal
enriched result (no payment-not-accepted failure is raised). -/
theorem c2_counterexample :
    c2Input.retryStatus = 402
    ∧ (payAndRequest 1 "u" ⟨0, []⟩ c2Input).result =
        .ok (.paid "rb" ⟨1/20, "0xTX", 1/20, 19/20⟩) := by
  refine ⟨rfl, ?_⟩
  norm_num [payAndRequest, c2Input]

/-- C2 (amended): when the retried request itself returns 402 again, no
second payment is submitted in either variant; the CLI flow terminates
with an HTTP-error failure and exit code 1, while the generated server
flow never inspects the retried status and returns the retried body,
enriched with payment info, as its normal result instead of a
payment-not-accepted failure. -/
theorem c2_second_402_amended :
    (∀ (inp : CliInput) (paymentInfo : Json) (k : String) (p : Payment),
      inp.status = 402 → inp.parsed = some paymentInfo →
      truthyJ (priceOf paymentInfo) = true →
      truthyJ (payToOf paymentInfo) = true →
      inp.key = some k → inp.payResult = .ok p → inp.retryStatus = 402 →
      callCommand inp = ⟨1, .retryHttpError 402,
        [.request, .payCall,
          .retried (baseHeaders ++ [("X-Payment-TxHash", p.txHash)])]⟩
      ∧ payCount (callCommand inp).events = 1)
    ∧ (∀ (MAX_BUDGET : ℚ) (url : String) (st : Budget) (sInp : PRInput)
        (rbody : RespBody) (d : Details) (tx rb : String),
      sInp.status = 402 → sInp.body = .ok rbody →
      rbody.payment_details = some d →
      st.sessionSpending + d.amount ≤ MAX_BUDGET →
      sInp.payOutcome = .ok tx → sInp.retryBody = .ok rb →
      sInp.retryStatus = 402 →
      (payAndRequest MAX_BUDGET url st sInp).result =
        .ok (.paid rb ⟨d.amount, tx, st.sessionSpending + d.amount,
          MAX_BUDGET - (st.sessionSpending + d.amount)⟩)
      ∧ payCount (payAndRequest MAX_BUDGET url st sInp).events = 1) := by
  constructor
  · intro inp paymentInfo k p h402 hp hprice hpay hkey hres hretry
    obtain ⟨s, parsed, body, key, payResult, rs, rrb⟩ := inp
    simp only at h402 hp hkey hres hretry
    subst h402 hp hkey hres hretry
    have hrun : callCommand ⟨402, some paymentInfo, body, some k, .ok p, 402, rrb⟩ =
        ⟨1, .retryHttpError 402,
          [.request, .payCall,
            .retried (baseHeaders ++ [("X-Payment-TxHash", p.txHash)])]⟩ := by
      rw [show callCommand ⟨402, some paymentInfo, body, some k, .ok p, 402, rrb⟩ =
          handleAutoPayment (.ok p) 402 rrb by simp [callCommand, hprice, hpay]]
      unfold handleAutoPayment
      simp [show isOkStatus 402 = false from rfl]
    rw [hrun]
    exact ⟨rfl, rfl⟩
  · intro MAX_BUDGET url st sInp rbody d tx rb hs hb hd hbud hpo hrb _
    obtain ⟨ss, sbody, shdrs, spo, srs, srb⟩ := sInp
    obtain ⟨pd⟩ := rbody
    simp only at hs hb hd hpo hrb
    subst hs hb hd hpo hrb
    have hrun : payAndRequest MAX_BUDGET url st
        ⟨402, .ok ⟨some d⟩, shdrs, .ok tx, srs, .ok rb⟩ =
        ⟨.ok (.paid rb ⟨d.amount, tx, st.sessionSpending + d.amount,
            MAX_BUDGET - (st.sessionSpending + d.amount)⟩),
          ⟨st.sessionSpending + d.amount,
            st.sessionPayments ++ [⟨d.amount, tx, url⟩]⟩,
          [.request, .payCall, .retried (shdrs ++ [("X-Payment-TxHash", tx)])]⟩ := by
      simp [payAndRequest, not_lt.mpr hbud]
    rw [hrun]
    exact ⟨rfl, rfl⟩

/-- C2 witness: both conjuncts at the concrete second-402 scenario. -/
theorem c2_second_402_amended_witness :
    callCommand ⟨402,
      some (.obj [("price", .str "0.01"), ("paymentAddress", .str sampleAddr)]),
      "", some sampleKey, .ok ⟨"0xTX", "e"⟩, 402, "rb"⟩ =
      ⟨1, .retryHttpError 402,
        [.request, .payCall,
          .retried (baseHeaders ++ [("X-Payment-TxHash", "0xTX")])]⟩
    ∧ (payAndRequest 1 "u" ⟨0, []⟩
        ⟨402, .ok ⟨some ⟨1/100, some "0xREC"⟩⟩, [], .ok "0xTX", 402, .ok "rb"⟩).result =
        .ok (.paid "rb" ⟨1/100, "0xTX", 0 + 1/100, 1 - (0 + 1/100)⟩) := by
  have h1 := (c2_second_402_amended.1 ⟨402,
      some (.obj [("price", .str "0.01"), ("paymentAddress", .str sampleAddr)]),
      "", some sampleKey, .ok ⟨"0xTX", "e"⟩, 402, "rb"⟩
    (.obj [("price", .str "0.01"), ("paymentAddress", .str sampleAddr)])
    sampleKey ⟨"0xTX", "e"⟩ rfl rfl rfl rfl rfl rfl rfl).1
  have h2 := (c2_second_402_amended.2 1 "u" ⟨0, []⟩
    ⟨402, .ok ⟨some ⟨1/100, some "0xREC"⟩⟩, [], .ok "0xTX", 402, .ok "rb"⟩
    ⟨some ⟨1/100, some "0xREC"⟩⟩ ⟨1/100, some "0xREC"⟩ "0xTX" "rb"
    rfl rfl rfl (by norm_num) rfl rfl rfl).1
  exact ⟨h1, h2⟩

/-- Concrete CLI 402 challenge with a price but no recipient field, with a
resolved key. -/
def c3CliInput : CliInput :=
  ⟨402, some (.obj [("price", .str "0.01")]), "", some sampleKey,
    .ok ⟨"0xTX", "e"⟩, 200, "rb"⟩

/-- Concrete server-variant 402 body whose payment_details lacks the
recipient. -/
def c3SrvInput : PRInput :=
  ⟨402, .ok ⟨some ⟨1/100, none⟩⟩, [], .ok "0xTX", 200, .ok "rb"⟩

/-- C3 counterexample: a 402 challenge missing the recipient is not a hard
malformed-challenge failure with zero payment attempts: the CLI ends in
the informational instructions outcome with exit code 0, and the server
variant still submits a payment (one payCall) despite the missing
recipient. -/
theorem c3_counterexample :
    callCommand c3CliInput =
      ⟨0, .instructions (some (.str "0.01")) none remediationLines, [.request]⟩
    ∧ payCount (payAndRequest 1 "u" ⟨0, []⟩ c3SrvInput).events = 1 := by
  constructor
  · rfl
  · norm_num [payAndRequest, c3SrvInput, payCount, List.countP,
      List.countP.go, isPayEvent]

/-- C3 (amended): a 402 body that fails JSON parsing is a hard failure
with zero payment attempts in both variants. A parsed challenge missing
the amount or the recipient is not a malformed-challenge failure in the
CLI: the CLI falls back to the informational instructions outcome (exit
code 0) with zero payment attempts and zero retries. The server variant
fails hard only when payment_details is missing entirely; when only the
recipient inside payment_details is missing it still attempts the
payment. No variant retries such a request with assumed defaults. -/
theorem c3_partial_challenge_amended :
    (∀ inp : CliInput, inp.status = 402 → inp.parsed = none →
      callCommand inp = ⟨1, .malformedChallenge, [.request]⟩
      ∧ payCount (callCommand inp).events = 0
      ∧ retryCount (callCommand inp).events = 0)
    ∧ (∀ (MAX_BUDGET : ℚ) (url : String) (st : Budget) (sInp : PRInput),
      sInp.body = .error () →
      payAndRequest MAX_BUDGET url st sInp = ⟨.error .parseError, st, [.request]⟩)
    ∧ (∀ (inp : CliInput) (paymentInfo : Json), inp.status = 402 →
      inp.parsed = some paymentInfo →
      (truthyJ (priceOf paymentInfo) = false ∨ truthyJ (payToOf paymentInfo) = false) →
      callCommand inp = ⟨0, .instructions (priceOf paymentInfo)
          (payToOf paymentInfo) remediationLines, [.request]⟩
      ∧ payCount (callCommand inp).events = 0
      ∧ retryCount (callCommand inp).events = 0)
    ∧ (∀ (MAX_BUDGET : ℚ) (url : String) (st : Budget) (sInp : PRInput)
        (rbody : RespBody),
      sInp.status = 402 → sInp.body = .ok rbody → rbody.payment_details = none →
      payAndRequest MAX_BUDGET url st sInp =
        ⟨.error .detailsMissing, st, [.request]⟩)
    ∧ (∀ (MAX_BUDGET : ℚ) (url : String) (st : Budget) (sInp : PRInput)
        (rbody : RespBody) (d : Details) (tx : String),
      sInp.status = 402 → sInp.body = .ok rbody →
      rbody.payment_details = some d → d.recipient = none →
      st.sessionSpending + d.amount ≤ MAX_BUDGET → sInp.payOutcome = .ok tx →
      payCount (payAndRequest MAX_BUDGET url st sInp).events = 1) := by
  refine ⟨?_, ?_, ?_, ?_, ?_⟩
  · intro inp h402 hp
    obtain ⟨s, parsed, body, key, payResult, rs, rrb⟩ := inp
    simp only at h402 hp
    subst h402 hp
    exact ⟨rfl, rfl, rfl⟩
  · intro MAX_BUDGET url st sInp hb
    obtain ⟨ss, sbody, shdrs, spo, srs, srb⟩ := sInp
    simp only at hb
    subst hb
    rfl
  · intro inp paymentInfo h402 hp hfalsy
    obtain ⟨s, parsed, body, key, payResult, rs, rrb⟩ := inp
    simp only at h402 hp
    subst h402 hp
    have hcond : (Option.isSome key && truthyJ (priceOf paymentInfo)
        && truthyJ (payToOf paymentInfo)) = false := by
      rcases hfalsy with h | h <;> simp [h]
    have hrun : callCommand ⟨402, some paymentInfo, body, key, payResult, rs, rrb⟩ =
        ⟨0, .instructions (priceOf paymentInfo) (payToOf paymentInfo)
          remediationLines, [.request]⟩ := by
      simp [callCommand, hcond]
    rw [hrun]
    exact ⟨rfl, rfl, rfl⟩
  · intro MAX_BUDGET url st sInp rbody h402 hb hd
    obtain ⟨ss, sbody, shdrs, spo, srs, srb⟩ := sInp
    obtain ⟨pd⟩ := rbody
    simp only at h402 hb hd
    subst h402 hb hd
    rfl
  · intro MAX_BUDGET url st sInp rbody d tx h402 hb hd hrec hbud hpo
    obtain ⟨ss, sbody, shdrs, spo, srs, srb⟩ := sInp
    obtain ⟨pd⟩ := rbody
    simp only at h402 hb hd hpo
    subst h402 hb hd hpo
    have hnot : ¬(st.sessionSpending + d.amount > MAX_BUDGET) := not_lt.mpr hbud
    cases srb with
    | error e =>
      simp [payAndRequest, hnot, payCount, List.countP, List.countP.go, isPayEvent]
    | ok rb =>
      simp [payAndRequest, hnot, payCount, List.countP, List.countP.go, isPayEvent]

/-- C3 witness: the amended conjuncts at concrete inputs: an unparseable
402 body in both variants, a missing payTo in the CLI, and a missing
payment_details in the server variant. -/
theorem c3_partial_challenge_amended_witness :
    callCommand ⟨402, none, "", some sampleKey, .ok ⟨"0xTX", "e"⟩, 200, "rb"⟩ =
      ⟨1, .malformedChallenge, [.request]⟩
    ∧ payAndRequest 1 "u" ⟨0, []⟩ ⟨402, .error (), [], .ok "0xTX", 200, .ok "rb"⟩ =
        ⟨.error .parseError, ⟨0, []⟩, [.request]⟩
    ∧ payCount (callCommand ⟨402, some (.obj [("price", .str "0.01")]), "",
        none, .error "m", 200, "rb"⟩).events = 0
    ∧ payAndRequest 1 "u" ⟨0, []⟩ ⟨402, .ok ⟨none⟩, [], .ok "0xTX", 200, .ok "rb"⟩ =
        ⟨.error .detailsMissing, ⟨0, []⟩, [.request]⟩ := by
  refine ⟨?_, ?_, ?_, ?_⟩
  · exact (c3_partial_challenge_amended.1
      ⟨402, none, "", some sampleKey, .ok ⟨"0xTX", "e"⟩, 200, "rb"⟩ rfl rfl).1
  · exact c3_partial_challenge_amended.2.1 1 "u" ⟨0, []⟩
      ⟨402, .error (), [], .ok "0xTX", 200, .ok "rb"⟩ rfl
  · exact (c3_partial_challenge_amended.2.2.1
      ⟨402, some (.obj [("price", .str "0.01")]), "", none, .error "m", 200, "rb"⟩
      (.obj [("price", .str "0.01")]) rfl rfl (Or.inr rfl)).2.1
  · exact c3_partial_challenge_amended.2.2.2.1 1 "u" ⟨0, []⟩
      ⟨402, .ok ⟨none⟩, [], .ok "0xTX", 200, .ok "rb"⟩ ⟨none⟩ rfl rfl rfl

/-- The flat challenge body named by the claim: top-level amount and recipient. -/
def c4FlatAmountRecipient : Json :=
  .obj [("amount", .str "0.01"), ("recipient", .str sampleAddr)]

/-- C4 counterexample: for the flat body with top-level amount and
recipient fields, the engine extracts neither a price nor a recipient,
and with a resolved key and a would-be-successful payment the CLI makes
zero payments and zero retries, falling back to the instructions
outcome instead of paying. -/
theorem c4_counterexample :
    priceOf c4FlatAmountRecipient = none
    ∧ payToOf c4FlatAmountRecipient = none
    ∧ callCommand ⟨402, some c4FlatAmountRecipient, "", some sampleKey,
        .ok ⟨"0xTX", "e"⟩, 200, "rb"⟩ =
      ⟨0, .instructions none none remediationLines, [.request]⟩
    ∧ payCount (callCommand ⟨402, some c4FlatAmountRecipient, "", some sampleKey,
        .ok ⟨"0xTX", "e"⟩, 200, "rb"⟩).events = 0 := by
  exact ⟨rfl, rfl, rfl, rfl⟩

/-- C4 (amended): the CLI engine accepts two challenge shapes: nested
payment_details (fields amount and recipient, with walletAddress as a
recipient fallback), and flat top-level fields named price and
paymentAddress — not flat amount and recipient. For a flat body with
truthy price and paymentAddress and a resolved key, one payment is
submitted and the retried request carries the transaction hash header. -/
theorem c4_challenge_shapes_amended :
    (∀ (paymentInfo d a : Json),
      paymentInfo.lookup "payment_details" = some d →
      d.lookup "amount" = some a → truthyJ (some a) = true →
      priceOf paymentInfo = some a)
    ∧ (∀ (paymentInfo d r : Json),
      paymentInfo.lookup "payment_details" = some d →
      d.lookup "recipient" = some r → truthyJ (some r) = true →
      payToOf paymentInfo = some r)
    ∧ (∀ paymentInfo : Json, paymentInfo.lookup "payment_details" = none →
      priceOf paymentInfo = paymentInfo.lookup "price"
      ∧ payToOf paymentInfo = paymentInfo.lookup "paymentAddress")
    ∧ (∀ (inp : CliInput) (paymentInfo : Json) (k : String) (p : Payment),
      inp.status = 402 → inp.parsed = some paymentInfo →
      paymentInfo.lookup "payment_details" = none →
      truthyJ (paymentInfo.lookup "price") = true →
      truthyJ (paymentInfo.lookup "paymentAddress") = true →
      inp.key = some k → inp.payResult = .ok p →
      payCount (callCommand inp).events = 1
      ∧ ∀ hdrs, Event.retried hdrs ∈ (callCommand inp).events →
          ("X-Payment-TxHash", p.txHash) ∈ hdrs) := by
  have hflat : ∀ paymentInfo : Json, paymentInfo.lookup "payment_details" = none →
      priceOf paymentInfo = paymentInfo.lookup "price"
      ∧ payToOf paymentInfo = paymentInfo.lookup "paymentAddress" := by
    intro paymentInfo hpd
    constructor
    · simp [priceOf, jsOrJ, hpd, truthyJ_none]
    · simp [payToOf, jsOrJ, hpd, truthyJ_none]
  refine ⟨?_, ?_, hflat, ?_⟩
  · intro paymentInfo d a hpd hda hta
    simp [priceOf, jsOrJ, hpd, hda, hta]
  · intro paymentInfo d r hpd hdr htr
    simp [payToOf, jsOrJ, hpd, hdr, htr]
  · intro inp paymentInfo k p h402 hp hpd hprice hpay hkey hres
    have hpr : truthyJ (priceOf paymentInfo) = true := by
      rw [(hflat paymentInfo hpd).1]; exact hprice
    have hpt : truthyJ (payToOf paymentInfo) = true := by
      rw [(hflat paymentInfo hpd).2]; exact hpay
    obtain ⟨s, parsed, body, key, payResult, rs, rrb⟩ := inp
    simp only at h402 hp hkey hres
    subst h402 hp hkey hres
    have hrun : (callCommand ⟨402, some paymentInfo, body, some k, .ok p, rs, rrb⟩).events =
        [.request, .payCall,
          .retried (baseHeaders ++ [("X-Payment-TxHash", p.txHash)])] := by
      rw [show callCommand ⟨402, some paymentInfo, body, some k, .ok p, rs, rrb⟩ =
          handleAutoPayment (.ok p) rs rrb by simp [callCommand, hpr, hpt]]
      exact handleAutoPayment_ok_events p rs rrb
    rw [hrun]
    refine ⟨rfl, ?_⟩
    intro hdrs hmem
    simp only [List.mem_cons, List.not_mem_nil, or_false] at hmem
    rcases hmem with h1 | h1 | h1
    · simp at h1
    · simp at h1
    · injection h1 with h2
      subst h2
      simp [baseHeaders]

/-- C4 witness: nested and flat extraction plus the flat-shape payment
flow at concrete bodies. -/
theorem c4_challenge_shapes_amended_witness :
    priceOf (.obj [("payment_details",
        .obj [("amount", .str "0.01"), ("recipient", .str sampleAddr)])]) =
      some (.str "0.01")
    ∧ payToOf (.obj [("payment_details",
        .obj [("amount", .str "0.01"), ("recipient", .str sampleAddr)])]) =
      some (.str sampleAddr)
    ∧ priceOf (.obj [("price", .str "0.01"), ("paymentAddress", .str sampleAddr)]) =
        some (.str "0.01")
    ∧ payCount (callCommand ⟨402,
        some (.obj [("price", .str "0.01"), ("paymentAddress", .str sampleAddr)]),
        "", some sampleKey, .ok ⟨"0xTX", "e"⟩, 200, "rb"⟩).events = 1 := by
  refine ⟨?_, ?_, ?_, ?_⟩
  · exact c4_challenge_shapes_amended.1
      (.obj [("payment_details",
        .obj [("amount", .str "0.01"), ("recipient", .str sampleAddr)])])
      (.obj [("amount", .str "0.01"), ("recipient", .str sampleAddr)])
      (.str "0.01") rfl rfl rfl
  · exact c4_challenge_shapes_amended.2.1
      (.obj [("payment_details",
        .obj [("amount", .str "0.01"), ("recipient", .str sampleAddr)])])
      (.obj [("amount", .str "0.01"), ("recipient", .str sampleAddr)])
      (.str sampleAddr) rfl rfl rfl
  · exact (c4_challenge_shapes_amended.2.2.1
      (.obj [("price", .str "0.01"), ("paymentAddress", .str sampleAddr)]) rfl).1
  · exact (c4_challenge_shapes_amended.2.2.2 ⟨402,
        some (.obj [("price", .str "0.01"), ("paymentAddress", .str sampleAddr)]),
        "", some sampleKey, .ok ⟨"0xTX", "e"⟩, 200, "rb"⟩
      (.obj [("price", .str "0.01"), ("paymentAddress", .str sampleAddr)])
      sampleKey ⟨"0xTX", "e"⟩ rfl rfl rfl rfl rfl rfl rfl).1

/-- Budget-state dichotomy for payAndRequest: either the budget is
untouched, or a transfer confirmed under the affordability check and the
budget gained exactly the challenge cost and one ledger entry. -/
theorem payAndRequest_budget_cases (MAX_BUDGET : ℚ) (url : String)
    (st : Budget) (sInp : PRInput) :
    (payAndRequest MAX_BUDGET url st sInp).budget = st
    ∨ ∃ rbody d tx, sInp.body = .ok rbody
        ∧ rbody.payment_details = some d
        ∧ sInp.payOutcome = .ok tx
        ∧ st.sessionSpending + d.amount ≤ MAX_BUDGET
        ∧ (payAndRequest MAX_BUDGET url st sInp).budget =
            ⟨st.sessionSpending + d.amount,
              st.sessionPayments ++ [⟨d.amount, tx, url⟩]⟩ := by
  obtain ⟨ss, sbody, shdrs, spo, srs, srb⟩ := sInp
  cases sbody with
  | error e => left; rfl
  | ok rbody =>
    by_cases h4 : ss = 402
    · subst h4
      obtain ⟨pd⟩ := rbody
      cases pd with
      | none => left; rfl
      | some d =>
        by_cases hgt : st.sessionSpending + d.amount > MAX_BUDGET
        · left; simp [payAndRequest, hgt]
        · cases spo with
          | error e => left; simp [payAndRequest, hgt]
          | ok tx =>
            right
            refine ⟨⟨some d⟩, d, tx, rfl, rfl, rfl, not_lt.mp hgt, ?_⟩
            cases srb with
            | error e => simp [payAndRequest, hgt]
            | ok rb => simp [payAndRequest, hgt]
    · left; simp [payAndRequest, h4]

/-- Negative-amount challenge accepted by the budget guard, used against
C7 and C8. -/
def c7Input : PRInput :=
  ⟨402, .ok ⟨some ⟨-(1/20), some "0xREC"⟩⟩, [], .ok "0xTX", 200, .ok "rb"⟩

/-- C7 counterexample: a successful payment for a negative challenge
amount passes the budget check and strictly DECREASES sessionSpending
(from 1/2 to 9/20), so spent is not monotonically non-decreasing. -/
theorem c7_counterexample :
    payCount (payAndRequest 1 "u" ⟨1/2, []⟩ c7Input).events = 1
    ∧ (payAndRequest 1 "u" ⟨1/2, []⟩ c7Input).budget.sessionSpending = 9/20
    ∧ (9 : ℚ)/20 < 1/2 := by
  refine ⟨?_, ?_, by norm_num⟩
  · norm_num [payAndRequest, c7Input, payCount, List.countP, List.countP.go,
      isPayEvent]
  · norm_num [payAndRequest, c7Input]

/-- C7 (amended): no sequence of payments drives sessionSpending above the
limit; every submitted payment satisfied spent + cost <= limit checked
before submission; an over-budget challenge fails with budgetExceeded
before any payment, leaving the budget untouched; spending and ledger
mutate only after a confirmed transfer; and spent is monotonically
non-decreasing PROVIDED challenge amounts are nonnegative — the code
performs no sign check, and a negative amount decreases spent. -/
theorem c7_budget_invariant_amended :
    (∀ (MAX_BUDGET : ℚ) (url : String) (st : Budget) (sInp : PRInput),
      st.sessionSpending ≤ MAX_BUDGET →
      (payAndRequest MAX_BUDGET url st sInp).budget.sessionSpending ≤ MAX_BUDGET)
    ∧ (∀ (MAX_BUDGET : ℚ) (url : String) (st : Budget) (inps : List PRInput),
      st.sessionSpending ≤ MAX_BUDGET →
      (runSession MAX_BUDGET url st inps).sessionSpending ≤ MAX_BUDGET)
    ∧ (∀ (MAX_BUDGET : ℚ) (url : String) (st : Budget) (sInp : PRInput)
        (rbody : RespBody) (d : Details),
      sInp.status = 402 → sInp.body = .ok rbody →
      rbody.payment_details = some d →
      st.sessionSpending + d.amount > MAX_BUDGET →
      payAndRequest MAX_BUDGET url st sInp =
        ⟨.error (.budgetExceeded st.sessionSpending MAX_BUDGET d.amount), st,
          [.request]⟩)
    ∧ (∀ (MAX_BUDGET : ℚ) (url : String) (st : Budget) (sInp : PRInput)
        (rbody : RespBody) (d : Details),
      sInp.status = 402 → sInp.body = .ok rbody →
      rbody.payment_details = some d →
      Event.payCall ∈ (payAndRequest MAX_BUDGET url st sInp).events →
      st.sessionSpending + d.amount ≤ MAX_BUDGET)
    ∧ (∀ (MAX_BUDGET : ℚ) (url : String) (st : Budget) (sInp : PRInput),
      sInp.payOutcome = .error () →
      (payAndRequest MAX_BUDGET url st sInp).budget = st)
    ∧ (∀ (MAX_BUDGET : ℚ) (url : String) (st : Budget) (sInp : PRInput)
        (rbody : RespBody) (d : Details) (tx : String),
      sInp.status = 402 → sInp.body = .ok rbody →
      rbody.payment_details = some d →
      st.sessionSpending + d.amount ≤ MAX_BUDGET → sInp.payOutcome = .ok tx →
      (payAndRequest MAX_BUDGET url st sInp).budget =
        ⟨st.sessionSpending + d.amount,
          st.sessionPayments ++ [⟨d.amount, tx, url⟩]⟩)
    ∧ (∀ (MAX_BUDGET : ℚ) (url : String) (st : Budget) (sInp : PRInput),
      (∀ (rbody : RespBody) (d : Details), sInp.body = .ok rbody →
        rbody.payment_details = some d → 0 ≤ d.amount) →
      st.sessionSpending ≤
        (payAndRequest MAX_BUDGET url st sInp).budget.sessionSpending) := by
  have hstep : ∀ (MAX_BUDGET : ℚ) (url : String) (st : Budget) (sInp : PRInput),
      st.sessionSpending ≤ MAX_BUDGET →
      (payAndRequest MAX_BUDGET url st sInp).budget.sessionSpending ≤ MAX_BUDGET := by
    intro MAX_BUDGET url st sInp hle
    rcases payAndRequest_budget_cases MAX_BUDGET url st sInp with h | ⟨rbody, d, tx, _, _, _, hbud, heq⟩
    · rw [h]; exact hle
    · rw [heq]; exact hbud
  refine ⟨hstep, ?_, ?_, ?_, ?_, ?_, ?_⟩
  · intro MAX_BUDGET url st inps
    induction inps generalizing st with
    | nil => intro h; exact h
    | cons i rest ih =>
      intro h
      exact ih ((payAndRequest MAX_BUDGET url st i).budget) (hstep MAX_BUDGET url st i h)
  · intro MAX_BUDGET url st sInp rbody d hs hb hd hgt
    obtain ⟨ss, sbody, shdrs, spo, srs, srb⟩ := sInp
    obtain ⟨pd⟩ := rbody
    simp only at hs hb hd
    subst hs hb hd
    simp [payAndRequest, hgt]
  · intro MAX_BUDGET url st sInp rbody d hs hb hd hmem
    by_cases hgt : st.sessionSpending + d.amount > MAX_BUDGET
    · obtain ⟨ss, sbody, shdrs, spo, srs, srb⟩ := sInp
      obtain ⟨pd⟩ := rbody
      simp only at hs hb hd
      subst hs hb hd
      rw [show payAndRequest MAX_BUDGET url st
          ⟨402, .ok ⟨some d⟩, shdrs, spo, srs, srb⟩ =
          ⟨.error (.budgetExceeded st.sessionSpending MAX_BUDGET d.amount), st,
            [.request]⟩ by simp [payAndRequest, hgt]] at hmem
      simp at hmem
    · exact not_lt.mp hgt
  · intro MAX_BUDGET url st sInp hpo
    rcases payAndRequest_budget_cases MAX_BUDGET url st sInp with h | ⟨rbody, d, tx, _, _, hpo2, _, _⟩
    · exact h
    · rw [hpo] at hpo2; exact absurd hpo2 (by simp)
  · intro MAX_BUDGET url st sInp rbody d tx hs hb hd hbud hpo
    obtain ⟨ss, sbody, shdrs, spo, srs, srb⟩ := sInp
    obtain ⟨pd⟩ := rbody
    simp only at hs hb hd hpo
    subst hs hb hd hpo
    cases srb with
    | error e => simp [payAndRequest, not_lt.mpr hbud]
    | ok rb => simp [payAndRequest, not_lt.mpr hbud]
  · intro MAX_BUDGET url st sInp hnonneg
    rcases payAndRequest_budget_cases MAX_BUDGET url st sInp with h | ⟨rbody, d, tx, hb, hd, _, _, heq⟩
    · rw [h]
    · rw [heq]
      have := hnonneg rbody d hb hd
      simp only
      linarith

/-- C7 witness: scenario E: limit 1.00, spent 0.97, challenge 0.05:
budgetExceeded reporting spent 0.97, limit 1.00, cost 0.05; spending
unchanged; and the session invariant at that state. -/
theorem c7_budget_invariant_amended_witness :
    payAndRequest 1 "u" ⟨97/100, []⟩
      ⟨402, .ok ⟨some ⟨5/100, some "0xREC"⟩⟩, [], .ok "0xTX", 200, .ok "rb"⟩ =
      ⟨.error (.budgetExceeded (97/100) 1 (5/100)), ⟨97/100, []⟩, [.request]⟩
    ∧ (runSession 1 "u" ⟨97/100, []⟩
        [⟨402, .ok ⟨some ⟨5/100, some "0xREC"⟩⟩, [], .ok "0xTX", 200, .ok "rb"⟩]).sessionSpending ≤ 1 := by
  constructor
  · exact c7_budget_invariant_amended.2.2.1 1 "u" ⟨97/100, []⟩
      ⟨402, .ok ⟨some ⟨5/100, some "0xREC"⟩⟩, [], .ok "0xTX", 200, .ok "rb"⟩
      ⟨some ⟨5/100, some "0xREC"⟩⟩ ⟨5/100, some "0xREC"⟩
      rfl rfl rfl (by norm_num)
  · exact c7_budget_invariant_amended.2.1 1 "u" ⟨97/100, []⟩
      [⟨402, .ok ⟨some ⟨5/100, some "0xREC"⟩⟩, [], .ok "0xTX", 200, .ok "rb"⟩]
      (by norm_num)

/-- Negative-amount challenge against a fresh budget, used against C8. -/
def c8Input : PRInput :=
  ⟨402, .ok ⟨some ⟨-(1/20), some "0xREC"⟩⟩, [], .ok "0xTX", 200, .ok "rb"⟩

/-- C8 counterexample: a negative challenge amount is NOT rejected by the
affordability check: the payment is submitted (one payCall) and
sessionSpending becomes negative. -/
theorem c8_counterexample :
    (-(1/20) : ℚ) < 0
    ∧ payCount (payAndRequest 1 "u" ⟨0, []⟩ c8Input).events = 1
    ∧ (payAndRequest 1 "u" ⟨0, []⟩ c8Input).budget.sessionSpending = -(1/20) := by
  refine ⟨by norm_num, ?_, ?_⟩
  · norm_num [payAndRequest, c8Input, payCount, List.countP, List.countP.go,
      isPayEvent]
  · norm_num [payAndRequest, c8Input]

/-- C8 (amended): the only test of the budget guard is
sessionSpending + cost > MAX_BUDGET: it rejects exactly the amounts
failing that inequality, and any amount passing it — including negative
amounts, which always pass against a nonnegative remaining budget — leads
to a submitted payment; no negativity or finiteness validation exists. -/
theorem c8_no_negative_check_amended (MAX_BUDGET : ℚ) (url : String)
    (st : Budget) (sInp : PRInput) (rbody : RespBody) (d : Details)
    (hs : sInp.status = 402) (hb : sInp.body = .ok rbody)
    (hd : rbody.payment_details = some d) :
    ((payAndRequest MAX_BUDGET url st sInp).result =
        .error (.budgetExceeded st.sessionSpending MAX_BUDGET d.amount) ↔
      st.sessionSpending + d.amount > MAX_BUDGET)
    ∧ (st.sessionSpending + d.amount ≤ MAX_BUDGET →
        Event.payCall ∈ (payAndRequest MAX_BUDGET url st sInp).events) := by
  obtain ⟨ss, sbody, shdrs, spo, srs, srb⟩ := sInp
  obtain ⟨pd⟩ := rbody
  simp only at hs hb hd
  subst hs hb hd
  by_cases hgt : st.sessionSpending + d.amount > MAX_BUDGET
  · constructor
    · exact iff_of_true (by simp [payAndRequest, hgt]) hgt
    · intro hle; exact absurd hgt (not_lt.mpr hle)
  · constructor
    · refine iff_of_false ?_ hgt
      cases spo with
      | error e => simp [payAndRequest, hgt]
      | ok tx =>
        cases srb with
        | error e2 => simp [payAndRequest, hgt]
        | ok rb => simp [payAndRequest, hgt]
    · intro _
      cases spo with
      | error e => simp [payAndRequest, hgt]
      | ok tx =>
        cases srb with
        | error e2 => simp [payAndRequest, hgt]
        | ok rb => simp [payAndRequest, hgt]

/-- C8 witness: amended guard behaviour at scenario-E numbers: over budget
is rejected, within budget submits a payment. -/
theorem c8_no_negative_check_amended_witness :
    (payAndRequest 1 "u" ⟨97/100, []⟩
      ⟨402, .ok ⟨some ⟨5/100, some "0xREC"⟩⟩, [], .ok "0xTX", 200, .ok "rb"⟩).result =
      .error (.budgetExceeded (97/100) 1 (5/100))
    ∧ Event.payCall ∈ (payAndRequest 1 "u" ⟨0, []⟩
        ⟨402, .ok ⟨some ⟨5/100, some "0xREC"⟩⟩, [], .ok "0xTX", 200, .ok "rb"⟩).events := by
  constructor
  · exact (c8_no_negative_check_amended 1 "u" ⟨97/100, []⟩
      ⟨402, .ok ⟨some ⟨5/100, some "0xREC"⟩⟩, [], .ok "0xTX", 200, .ok "rb"⟩
      ⟨some ⟨5/100, some "0xREC"⟩⟩ ⟨5/100, some "0xREC"⟩
      rfl rfl rfl).1.mpr (by norm_num)
  · exact (c8_no_negative_check_amended 1 "u" ⟨0, []⟩
      ⟨402, .ok ⟨some ⟨5/100, some "0xREC"⟩⟩, [], .ok "0xTX", 200, .ok "rb"⟩
      ⟨some ⟨5/100, some "0xREC"⟩⟩ ⟨5/100, some "0xREC"⟩
      rfl rfl rfl).2 (by norm_num)

/-- C9: sendUsdcPayment fails with insufficientFunds exactly when the
balance of the address of the key is below the 6-decimal-unit amount; the
check runs before any transfer (no transfer is attempted on that
failure); and the error reports the available balance and the required
amount. -/
theorem c9_insufficient_funds (addressOf : String → String)
    (balanceOf : String → ℕ) (transferResult : Except Unit String)
    (receiptOk : Bool) (privateKey toAddress : String) (amountUsdc : ℚ) :
    ((sendUsdcPayment addressOf balanceOf transferResult receiptOk
        privateKey toAddress amountUsdc).result =
      .error (.insufficientFunds
        ((balanceOf (addressOf privateKey) : ℚ) / 1000000) amountUsdc) ↔
      (balanceOf (addressOf privateKey) : ℚ) < amountUsdc * 1000000)
    ∧ ((balanceOf (addressOf privateKey) : ℚ) < amountUsdc * 1000000 →
        (sendUsdcPayment addressOf balanceOf transferResult receiptOk
          privateKey toAddress amountUsdc).transferAttempted = false)
    ∧ (∀ avail req,
        (sendUsdcPayment addressOf balanceOf transferResult receiptOk
          privateKey toAddress amountUsdc).result =
          .error (.insufficientFunds avail req) →
        avail = (balanceOf (addressOf privateKey) : ℚ) / 1000000
        ∧ req = amountUsdc) := by
  by_cases hlt : (balanceOf (addressOf privateKey) : ℚ) < amountUsdc * 1000000
  · refine ⟨iff_of_true (by simp [sendUsdcPayment, hlt]) hlt,
      fun _ => by simp [sendUsdcPayment, hlt], ?_⟩
    intro avail req h
    rw [show (sendUsdcPayment addressOf balanceOf transferResult receiptOk
        privateKey toAddress amountUsdc).result =
        .error (.insufficientFunds
          ((balanceOf (addressOf privateKey) : ℚ) / 1000000) amountUsdc)
      from by simp [sendUsdcPayment, hlt]] at h
    injection h with h1
    injection h1 with h2 h3
    exact ⟨h2.symm, h3.symm⟩
  · have hres : ∀ avail req,
        (sendUsdcPayment addressOf balanceOf transferResult receiptOk
          privateKey toAddress amountUsdc).result ≠
          .error (.insufficientFunds avail req) := by
      intro avail req
      cases transferResult with
      | error e => simp [sendUsdcPayment, hlt]
      | ok tx =>
        cases receiptOk with
        | false => simp [sendUsdcPayment, hlt]
        | true => simp [sendUsdcPayment, hlt]
    refine ⟨iff_of_false (hres _ _) hlt, fun h => absurd h hlt, ?_⟩
    intro avail req h
    exact absurd h (hres avail req)

/-- C9 witness: scenario B: balance 0.005 USDC (5000 units), required
0.01 USDC: insufficientFunds reporting 0.005 available and 0.01
required, with no transfer attempted. -/
theorem c9_insufficient_funds_witness :
    (sendUsdcPayment (fun _ => sampleAddr) (fun _ => 5000) (.ok "0xTX") true
      sampleKey "0xREC" (1/100)).result =
      .error (.insufficientFunds (((5000 : ℕ) : ℚ) / 1000000) (1/100))
    ∧ (sendUsdcPayment (fun _ => sampleAddr) (fun _ => 5000) (.ok "0xTX") true
        sampleKey "0xREC" (1/100)).transferAttempted = false := by
  have h := c9_insufficient_funds (fun _ => sampleAddr) (fun _ => 5000)
    (.ok "0xTX") true sampleKey "0xREC" (1/100)
  have hlt : ((5000 : ℕ) : ℚ) < (1/100) * 1000000 := by norm_num
  exact ⟨h.1.mpr hlt, h.2.1 hlt⟩

end X402
